import Mathlib

/-!
# Verification of the sundial data-preparation pipeline

Shallow embedding of the repository's Python sources:

* `src/pipeline/utils.py` — metadata parsing, coordinate naming, pixel-array
  reshaping, centre padding;
* `src/pipeline/downloader.py` — pre-flight size checks, generator/consumer/
  watcher queue discipline;
* `src/dataloaders.py` — `ChipsDataset` item access (year slicing, centre
  cropping, normalization).

Machine floats that can be NaN are embedded as an inductive with an explicit
NaN constructor; all other numeric values are embedded as rationals.
xarray label selection along dimensions that carry no coordinate variable
falls back to positional indexing, so `.sel(dim=slice(a, b))` is embedded as
Python positional list slicing.
-/

namespace Sundial

/-! ## Python positional list slicing

`pySliceNorm n i` normalises a Python slice endpoint `i` against length `n`
(negative endpoints count from the end, everything is clamped to `[0, n]`);
`pySlice l a b` is Python's `l[a:b]`. -/

def pySliceNorm (n : ℕ) (i : ℤ) : ℕ :=
  if i < 0 then ((n : ℤ) + i).toNat else min i.toNat n

def pySlice {α : Type*} (l : List α) (a b : ℤ) : List α :=
  (l.take (pySliceNorm l.length b)).drop (pySliceNorm l.length a)

/-- Modelled from the spec: the configuration module (`settings.py`, not under
`src/`) provides a no-data fill value described as "a large-magnitude negative
sentinel"; a representative concrete value is used.  The claims settled here
depend only on it being nonzero. -/
def NO_DATA_VALUE : ℚ := -32768

/-- Modelled from the spec: the configuration module's strata attribute name
(the key under which a record's stratum label is stored); the concrete string
is irrelevant to every claim. -/
def STRATA_ATTR_NAME : String := "stratum"

/-- Modelled from the spec: the configuration module's strata dimension name
used when rechunking annotation arrays. -/
def STRATA_DIM_NAME : String := "stratum"

/-! ## `utils.generate_coords_name` (src/pipeline/utils.py:158-163)

The source receives a polygon's coordinate list (a list of `(x, y)` pairs);
integer coordinates are used.  `coords[:-1]` is `List.dropLast`; the
`else` branch formats `coords[0]` and `coords[1]` — whole pairs, which a
Python f-string renders with tuple repr `"(x, y)"` — and raises `IndexError`
when the list has fewer than two elements, embedded as `none`. -/

def coordSegment (p : ℤ × ℤ) : String :=
  "x" ++ toString p.1 ++ "y" ++ toString p.2

def pyPairRepr (p : ℤ × ℤ) : String :=
  "(" ++ toString p.1 ++ ", " ++ toString p.2 ++ ")"

/-- Python `sep.join(parts)`. -/
def pyJoin (sep : String) : List String → String
  | [] => ""
  | [s] => s
  | s :: rest => s ++ sep ++ pyJoin sep rest

def generate_coords_name (coords : List (ℤ × ℤ)) : Option String :=
  if coords.length > 2 then
    some (pyJoin "_" (coords.dropLast.map coordSegment))
  else
    match coords with
    | [p0, p1] => some ("x" ++ pyPairRepr p0 ++ "y" ++ pyPairRepr p1)
    | _ => none

/-- Spec-side formatter: drop the closing vertex, then join the remaining
pairs as `x{x}y{y}` segments separated by underscores (written independently
of the embedding, by direct recursion over the whole pair list). -/
def specJoinedName : List (ℤ × ℤ) → String
  | [] => ""
  | [_] => ""
  | [p, _] => coordSegment p
  | p :: q :: r :: rest => coordSegment p ++ "_" ++ specJoinedName (q :: r :: rest)

/-! ## `utils.parse_meta_data` (src/pipeline/utils.py:166-212) -/

/-- A Python float that may be the IEEE NaN fill sentinel. -/
inductive PyF
  | nan : PyF
  | val : ℚ → PyF
deriving DecidableEq, Repr

/-- Python `==` on `PyF`: NaN compares unequal to everything, itself
included. -/
def pyEq : PyF → PyF → Bool
  | .val a, .val b => a == b
  | _, _ => false

/-- Spec-side NaN test, independent of the code's self-equality trick. -/
def isNaN : PyF → Bool
  | .nan => true
  | .val _ => false

/-- Does the first character list start with the second? -/
def charsBeginWith : List Char → List Char → Bool
  | _, [] => true
  | [], _ :: _ => false
  | h :: hs, n :: ns => h = n && charsBeginWith hs ns

/-- Does the first character list contain the second as a contiguous run? -/
def charsContain (h n : List Char) : Bool :=
  charsBeginWith h n ||
    match h with
    | [] => false
    | _ :: hs => charsContain hs n

/-- Python `needle in haystack` on strings. -/
def strContains (hay needle : String) : Bool :=
  charsContain hay.toList needle.toList

/-- Python `datetime(year, month, day)`. -/
structure PyDate where
  year : ℤ
  month : ℕ
  day : ℕ
deriving DecidableEq, Repr

/-- One record of the sample metadata catalog, as `parse_meta_data` reads it
at a fixed index: the geometry column values, the point/square coordinates
and names, the optional `year` variable, and the scalar data variables. -/
structure MetaRecord where
  geometry : List (List PyF)
  point_coords : ℚ × ℚ
  point_name : String
  square_coords : List (ℚ × ℚ)
  square_name : String
  year : Option ℤ
  data_vars : List (String × ℚ)

/-- The tuple `parse_meta_data` returns, with fields in the source's
positional order. -/
structure ParsedMeta where
  geometry : List (List PyF)
  point_coords : ℚ × ℚ
  point_name : String
  square_coords : List (ℚ × ℚ)
  square_name : String
  start_date : Option PyDate
  end_date : Option PyDate
  attributes : List (String × ℚ)

/-- Embeds `utils.parse_meta_data`: geometry pairs are kept when every
component satisfies Python `c == c`; `year` present gives
`end_date = datetime(year, 9, 1)` and `start_date = datetime(year - back_step, 6, 1)`;
attributes keep the data variables whose key contains none of
`"geometry"`, `"square"`, `"point"`. -/
def parse_meta_data (md : MetaRecord) (back_step : ℤ) : ParsedMeta where
  geometry := md.geometry.filter (fun p => p.all (fun c => pyEq c c))
  point_coords := md.point_coords
  point_name := md.point_name
  square_coords := md.square_coords
  square_name := md.square_name
  start_date := md.year.map (fun y => ⟨y - back_step, 6, 1⟩)
  end_date := md.year.map (fun y => ⟨y, 9, 1⟩)
  attributes := md.data_vars.filter
    (fun kv => !(strContains kv.1 "geometry") &&
      !(strContains kv.1 "square") && !(strContains kv.1 "point"))

/-! ## `utils.pad_xy_xarray` (src/pipeline/utils.py:137-155) and
`ChipsDataset.clip_chip` (src/dataloaders.py:51-60)

A labelled array is viewed through its `(x, y)` index grid as a
`List (List α)`: the outer list runs along `x`, the inner along `y`, and a
cell `α` holds whatever trails the spatial dimensions (a bare value for an
`(x, y)` array, a band vector for a `(year, x, y, band)` slice).  The `y`
dimension size is read off the first row, as xarray's uniform dimension
size.  `clip_chip`'s `.sel(x=slice(a, -b), y=slice(c, -d))` acts on
dimensions that carry no coordinate variable, hence positionally. -/

def gridY {α : Type*} (g : List (List α)) : ℕ := (g.headD []).length

def pad_xy_xarray {α : Type*} (nd : α) (pixel_edge_size : ℕ)
    (g : List (List α)) : List (List α) :=
  let x_diff : ℤ := (pixel_edge_size : ℤ) - g.length
  let y_diff : ℤ := (pixel_edge_size : ℤ) - gridY g
  let x_start := (x_diff.fdiv 2).toNat
  let x_end := (x_diff - x_diff.fdiv 2).toNat
  let y_start := (y_diff.fdiv 2).toNat
  let y_end := (y_diff - y_diff.fdiv 2).toNat
  let padded_y := y_start + gridY g + y_end
  List.replicate x_start (List.replicate padded_y nd) ++
    g.map (fun r => List.replicate y_start nd ++ r ++ List.replicate y_end nd) ++
    List.replicate x_end (List.replicate padded_y nd)

/-- The `(start, end)` amounts `clip_chip` computes for one axis:
`diff // 2` and the remainder (Python `//` is floor division). -/
def clipAxis (chip_size sz : ℕ) : ℤ × ℤ :=
  let d : ℤ := (sz : ℤ) - chip_size
  (d.fdiv 2, d - d.fdiv 2)

/-- The slicing step of `clip_chip` with the four computed amounts:
`xarr.sel(x=slice(x_start, -x_end), y=slice(y_start, -y_end))`. -/
def clipGridWith {α : Type*} (xs xe ys ye : ℤ) (g : List (List α)) :
    List (List α) :=
  (pySlice g xs (-xe)).map (fun r => pySlice r ys (-ye))

/-- Embeds `ChipsDataset.clip_chip` on the `(x, y)` grid view. -/
def clip_chip {α : Type*} (chip_size : ℕ) (g : List (List α)) :
    List (List α) :=
  clipGridWith (clipAxis chip_size g.length).1 (clipAxis chip_size g.length).2
    (clipAxis chip_size (gridY g)).1 (clipAxis chip_size (gridY g)).2 g

/-! ## `Downloader.start` pre-flight (src/pipeline/downloader.py:108-135)

With the bypass off, `start()` first runs

  `_, _, _, square_coords, start_date, end_date, _ = parse_meta_data(...)`

(line 114): seven assignment targets for the eight-component tuple
`parse_meta_data` returns (utils.py:205-212), a Python `ValueError` on
every call.  Only if that unpacking succeeded would the representative
request be built (itself passing 4 positional arguments to the 6-parameter
`lt_image_generator`, a `TypeError`) and the three limit comparisons run on
`estimate_download_size`'s results.  The estimate numbers are taken as
inputs here, the imagery-service calls being external.  The class limits
are `_size_limit = 65`, `_band_limit = 1024`, `_pixel_limit = 3.2e4`; the
Python test `test_pixels ** .5 > _pixel_limit` is embedded as
`_pixel_limit ^ 2 < test_pixels`, equivalent for the nonnegative pixel
counts the region reduction produces.  `.ok ()` means `start` proceeds to
launch the watcher. -/

def size_limit : ℚ := 65
def band_limit : ℚ := 1024
def pixel_limit : ℚ := 3.2e4

/-- The limit-comparison block of `Downloader.start`
(downloader.py:126-134) in isolation, on the three numbers
`estimate_download_size` would return.  In the source this block is
unreachable when the bypass is off: the tuple unpacking above it raises
first (see `Downloader_start`). -/
def startPreflight (ignore_size_limit : Bool)
    (test_size test_pixels test_bands : ℚ) : Except String Unit :=
  if ignore_size_limit then .ok ()
  else if size_limit < test_size then
    .error "Image size exceeds size limit"
  else if pixel_limit ^ 2 < test_pixels then
    .error "Pixel count exceeds pixel limit"
  else if band_limit < test_bands then
    .error "Band count exceeds band limit"
  else .ok ()

/-- One component of the tuple `parse_meta_data` returns, tagged by its
type. -/
inductive MetaField
  | geom : List (List PyF) → MetaField
  | pairF : ℚ × ℚ → MetaField
  | strF : String → MetaField
  | pairs : List (ℚ × ℚ) → MetaField
  | dateF : Option PyDate → MetaField
  | attrsF : List (String × ℚ) → MetaField

/-- The eight-component tuple `parse_meta_data` returns
(utils.py:205-212), as the heterogeneous sequence Python unpacks. -/
def parseMetaDataTuple (md : MetaRecord) (back_step : ℤ) : List MetaField :=
  [.geom (parse_meta_data md back_step).geometry,
   .pairF (parse_meta_data md back_step).point_coords,
   .strF (parse_meta_data md back_step).point_name,
   .pairs (parse_meta_data md back_step).square_coords,
   .strF (parse_meta_data md back_step).square_name,
   .dateF (parse_meta_data md back_step).start_date,
   .dateF (parse_meta_data md back_step).end_date,
   .attrsF (parse_meta_data md back_step).attributes]

/-- Python tuple unpacking into seven targets: succeeds exactly on a
seven-element sequence, raises `ValueError` otherwise (message shown for
the too-many case hit at downloader.py:114). -/
def pyUnpack7 (l : List MetaField) :
    Except String (MetaField × MetaField × MetaField × MetaField ×
      MetaField × MetaField × MetaField) :=
  match l with
  | [a, b, c, d, e, f, g] => .ok (a, b, c, d, e, f, g)
  | _ => .error "ValueError: too many values to unpack (expected 7)"

/-- Embeds `Downloader.start` up to launching the watcher: bypass set skips
the pre-flight entirely; bypass off first unpacks `parse_meta_data`'s tuple
into seven targets (downloader.py:114) and only then would reach the limit
comparisons. -/
def Downloader_start (md : MetaRecord) (back_step : ℤ)
    (ignore_size_limit : Bool) (test_size test_pixels test_bands : ℚ) :
    Except String Unit :=
  if ignore_size_limit then .ok ()
  else do
    let _ ← pyUnpack7 (parseMetaDataTuple md back_step)
    startPreflight false test_size test_pixels test_bands

/-! ## `Downloader._image_consumer` (src/pipeline/downloader.py:331-416)

One dequeued task, processed by a consumer.  The imagery fetch is abstracted
by an oracle giving each attempt's outcome (`true` = `ee.data.computePixels`
returns an array, `false` = it raises); everything else is the source's
control flow.  The `while attempts < self._retries` loop increments
`attempts`, tries the fetch, and on failure sleeps and reports a warning;
when the failing attempt is the last one (`attempts == self._retries`) it
reports an ERROR and pushes the square name onto the result queue.  After
the loop, a successful fetch is persisted; then the square name is pushed
onto the result queue unconditionally.  Every exception is caught inside the
loop, so the function always returns normally. -/

/-- The retry loop from attempt counter `a`, with `remaining` kept equal to
`retries - a` so the recursion is structural: `remaining = 0` is exactly the
loop guard `attempts < retries` failing.  Returns the successful attempt
number (if any) and the result-queue pushes made inside the loop. -/
def fetchLoopGo (oracle : ℕ → Bool) (retries : ℕ) (name : String) :
    ℕ → ℕ → Option ℕ × List String
  | _, 0 => (none, [])
  | a, remaining + 1 =>
    if oracle (a + 1) then (some (a + 1), [])
    else if a + 1 = retries then (none, [name])
    else fetchLoopGo oracle retries name (a + 1) remaining

def fetchLoop (oracle : ℕ → Bool) (retries : ℕ) (name : String) (a : ℕ) :
    Option ℕ × List String :=
  fetchLoopGo oracle retries name a (retries - a)

/-- What one consumer iteration leaves behind for a single task. -/
structure ConsumerStep where
  fetched : Option ℕ
  persisted : Bool
  errorReported : Bool
  results : List (Option String)
deriving DecidableEq, Repr

/-- Embeds the per-task body of `_image_consumer` (persistence abstracted to
"a chip was written", which happens exactly when the fetch produced an
array). -/
def image_consumer_task (oracle : ℕ → Bool) (retries : ℕ) (name : String) :
    ConsumerStep :=
  let r := fetchLoop oracle retries name 0
  { fetched := r.1
    persisted := r.1.isSome
    errorReported := !r.2.isEmpty
    results := r.2.map some ++ [some name] }

/-! ## `Downloader._image_generator` and `_watcher` result accounting
(src/pipeline/downloader.py:137-200 and 220-329)

ZARR output format with `overwrite = false`.  Per catalog record the
generator takes one of four paths: both zarr groups already exist (skip —
reports an INFO message, pushes nothing to the result queue, enqueues
nothing); the existence probe raises a non-not-found exception (pushes the
square name, enqueues nothing); building/serializing the payload raises
(pushes the square name, enqueues nothing); or the payload is enqueued.
After the loop it enqueues one `None` sentinel per worker. -/

inductive GenOutcome
  | alreadyExists
  | probeFatal
  | buildFailed
  | enqueued
deriving DecidableEq, Repr

/-- `(tasks enqueued, result-queue pushes)` the generator makes for one
record named `n` on each path. -/
def generatorRecord (n : String) : GenOutcome → List String × List String
  | .alreadyExists => ([], [])
  | .probeFatal => ([], [n])
  | .buildFailed => ([], [n])
  | .enqueued => ([n], [])

/-- Every value the orchestrator's processes ever push onto the result
queue, for a catalog of `records`, a per-square fetch oracle, and
`numWorkers` consumers (the tasks shown processed by one consumer; the
counts are interleaving-independent): the generator's pushes, the
consumers' per-task pushes, and one terminating `None` sentinel per
worker. -/
def resultQueuePushes (records : List (String × GenOutcome))
    (oracle : String → ℕ → Bool) (retries numWorkers : ℕ) :
    List (Option String) :=
  let gen := records.map (fun r => generatorRecord r.1 r.2)
  let tasks := (gen.map Prod.fst).flatten
  (gen.map Prod.snd).flatten.map some ++
    (tasks.map (fun n => (image_consumer_task (oracle n) retries n).results)).flatten ++
    List.replicate numWorkers none

/-- The number of image requests the generator enqueues. -/
def tasksEnqueued (records : List (String × GenOutcome)) : ℕ :=
  ((records.map (fun r => (generatorRecord r.1 r.2).1)).flatten).length

/-- The watcher's drain loop `while idx < meta_size` counts non-`None`
results; it can terminate only if at least `metaSize` non-sentinel values
are ever pushed. -/
def watcherTerminates (pushes : List (Option String)) (metaSize : ℕ) : Bool :=
  metaSize ≤ (pushes.filter Option.isSome).length

/-! ## `utils.zarr_reshape` (src/pipeline/utils.py:81-134)

The raw pixel structured array is a list of named fields, each holding an
`(x, y)` matrix of rationals; field names follow `"{year}_{band}"` plus an
optional `"overlap"`.  A chip is `[year][x][y][band]`; an annotation array
is `[stratum][x][y]`.  `np.dstack` stacks the band matrices along a new
trailing axis.  Scalar record attributes are carried as strings (only the
stratum label is ever read).  `.chunk(chunks={...})` is recorded as the
chunk-size spec it sets.  Failure (`KeyError` on a missing field or on a
stratum absent from the strata map, malformed field names) is `none`. -/

abbrev Mat : Type := List (List ℚ)

abbrev Chip : Type := List (List (List (List ℚ)))

def chipX (c : Chip) : ℕ := (c.headD []).length
def chipY (c : Chip) : ℕ := ((c.headD []).headD []).length

def annX (a : List Mat) : ℕ := (a.headD ([] : List (List ℚ))).length
def annY (a : List Mat) : ℕ :=
  ((a.headD ([] : List (List ℚ))).headD []).length

def zerosLike (m : Mat) : Mat :=
  (m : List (List ℚ)).map (fun r => r.map (fun _ => 0))

/-- `np.dstack`: stack same-shape `(x, y)` matrices along a new trailing
axis, giving `result[i][j][k] = mats[k][i][j]`. -/
def dstackMats (mats : List Mat) : List (List (List ℚ)) :=
  match mats with
  | [] => []
  | m0 :: _ =>
    (m0 : List (List ℚ)).mapIdx (fun i row =>
      row.mapIdx (fun j _ =>
        mats.map (fun m => ((m : List (List ℚ)).getD i []).getD j 0)))

/-- Python `str.split(sep)` on the character list: split at every occurrence
of the separator. -/
def splitCharsOn (sep : Char) : List Char → List (List Char)
  | [] => [[]]
  | c :: rest =>
    let r := splitCharsOn sep rest
    if c = sep then [] :: r
    else
      match r with
      | [] => [[c]]
      | h :: t => (c :: h) :: t

/-- Splitting `"{year}_{band}"` on the separator (`b.split('_')`); any other
piece count raises in the source's tuple unpacking. -/
def splitYearBand (s : String) : Option (String × String) :=
  match (splitCharsOn '_' s.toList).map (fun cs => String.mk cs) with
  | [y, b] => some (y, b)
  | _ => none

/-- The chip-construction loop of `zarr_reshape`: recover the year and band
sets from the non-overlap field names and stack each year's bands. -/
def buildChip (fields : List (String × Mat)) : Option (Chip × ℕ) := do
  let names := fields.map Prod.fst
  let pairs ← (names.filter (fun n => n ≠ "overlap")).mapM splitYearBand
  let years := (pairs.map Prod.fst).dedup
  let bands := (pairs.map Prod.snd).dedup
  let chip ← years.mapM (fun y => do
    let mats ← bands.mapM (fun b => fields.lookup (y ++ "_" ++ b))
    pure (dstackMats mats))
  pure (chip, bands.length)

/-- The annotation branch of `zarr_reshape`: when an `"overlap"` field and
the strata attribute are both present, one zero matrix per strata-map entry
with the slice at the record's mapped index overwritten by the overlap
mask; `none` when the branch is skipped; failure when the stratum is not in
the map. -/
def buildAnn (fields : List (String × Mat))
    (new_attrs : List (String × String))
    (strata_map : List (String × ℕ)) : Option (Option (List Mat)) :=
  match new_attrs.lookup STRATA_ATTR_NAME, fields.lookup "overlap" with
  | some stratum, some overlap => do
    let stratum_idx ← strata_map.lookup stratum
    pure (some
      ((List.replicate strata_map.length (zerosLike overlap)).set
        stratum_idx overlap))
  | _, _ => pure none

structure ZarrOut where
  chip : Chip
  chipChunks : List (String × ℕ)
  ann : Option (List Mat × List (String × ℕ))
deriving DecidableEq, Repr

def zarr_reshape (fields : List (String × Mat)) (pixel_edge_size : ℕ)
    (square_name point_name : String)
    (attributes : List (String × String))
    (strata_map : List (String × ℕ)) : Option ZarrOut := do
  let new_attrs := attributes ++ [("point", point_name)]
  let cb ← buildChip fields
  let chip := cb.1
  let band_count := cb.2
  let ann ← buildAnn fields new_attrs strata_map
  -- padding both arrays when either spatial extent is below the edge size;
  -- the `(x, y)` pads are applied across the year (resp. stratum) axis with
  -- the no-data sentinel filling every trailing band entry
  let needPad := min (chipX chip) (chipY chip) < pixel_edge_size
  let chipP : Chip :=
    if needPad then
      (chip : List (List (List (List ℚ)))).map
        (pad_xy_xarray (List.replicate band_count NO_DATA_VALUE)
          pixel_edge_size)
    else chip
  let annP := if needPad then
      ann.map (fun a => a.map (pad_xy_xarray NO_DATA_VALUE pixel_edge_size))
    else ann
  pure { chip := chipP
         chipChunks := [("year", 1)]
         ann := annP.map (fun a => (a, [(STRATA_DIM_NAME, 1)])) }

/-! ## `ChipsDataset` (src/dataloaders.py:13-121)

`PreprocesNormalization` broadcasts per-band mean/std vectors over the
year, x and y axes (`view(1, 1, 1, -1)` aligns them with the trailing band
axis).  `__getitem__` reads `(square_name, year)` at the sample index,
loads the chip by name, optionally slices years, centre-crops oversized
spatial extents, builds the item list, and appends the annotation and the
name when configured.  Index or key misses are `none`.  Tensors keep their
rational values (`dtype=torch.float` conversion is value-preserving
here). -/

def normCell (means stds cell : List ℚ) : List ℚ :=
  (cell.zip (means.zip stds)).map (fun p => (p.1 - p.2.1) / p.2.2)

def preprocesNormalization (means stds : List ℚ) (c : Chip) : Chip :=
  (c : List (List (List (List ℚ)))).map
    (fun yr => yr.map (fun row => row.map (normCell means stds)))

/-- `self.normalize` is set only when `means and stds` is truthy: both
present and non-empty (Python's list truthiness). -/
def normalizeCfg (means stds : Option (List ℚ)) :
    Option (List ℚ × List ℚ) :=
  match means, stds with
  | some m, some s => if m.isEmpty || s.isEmpty then none else some (m, s)
  | _, _ => none

/-- `ChipsDataset.slice_year`: positional year slicing
`xarr.sel(year=slice(end_year - back_step, end_year + 1))` with
`end_year = year - base_year`. -/
def slice_year (base_year back_step : ℤ) (xarr : Chip) (year : ℤ) : Chip :=
  let end_year := year - base_year
  let start_year := end_year - back_step
  (pySlice (xarr : List (List (List (List ℚ)))) start_year (end_year + 1) : Chip)

/-- `clip_chip` acting on a `(year, x, y, band)` chip: the axis amounts come
from the array's `x`/`y` dimension sizes and the `x`/`y` slices apply across
every year. -/
def clipChip4 (chip_size : ℕ) (c : Chip) : Chip :=
  (c : List (List (List (List ℚ)))).map
    (clipGridWith (clipAxis chip_size (chipX c)).1
      (clipAxis chip_size (chipX c)).2
      (clipAxis chip_size (chipY c)).1
      (clipAxis chip_size (chipY c)).2)

/-- `clip_chip` acting on a `(stratum, x, y)` annotation array. -/
def clipAnn3 (chip_size : ℕ) (a : List Mat) : List Mat :=
  a.map (fun m => (clipGridWith (clipAxis chip_size (annX a)).1
    (clipAxis chip_size (annX a)).2
    (clipAxis chip_size (annY a)).1
    (clipAxis chip_size (annY a)).2 (m : List (List ℚ)) : Mat))

/-- `ChipsDataset.get_strata`: load the annotation by name and centre-crop
it when oversized. -/
def get_strata (chip_size : ℕ) (annos : List (String × List Mat))
    (nm : String) : Option (List Mat) := do
  let strata ← annos.lookup nm
  pure (if chip_size < max (annX strata) (annY strata) then
    clipAnn3 chip_size strata else strata)

/-- One element of the list `__getitem__` returns. -/
inductive Item
  | chip : Chip → Item
  | anno : List Mat → Item
  | sqName : String → Item
deriving DecidableEq, Repr

/-- Embeds `ChipsDataset.__getitem__`.  The sample store holds
`(square_name, year)` per index; chip and annotation stores are keyed by
square name. -/
def getitem (means stds : Option (List ℚ)) (anno_data_path : Option String)
    (chip_size : ℕ) (base_year back_step : Option ℤ) (include_names : Bool)
    (samples : List (String × ℤ)) (chips : List (String × Chip))
    (annos : List (String × List Mat)) (idx : ℕ) : Option (List Item) := do
  let s ← samples[idx]?
  let nm := s.1
  let year := s.2
  let image ← chips.lookup nm
  let chip :=
    match base_year, back_step with
    | some yb, some bs => slice_year yb bs image year
    | _, _ => image
  let chip :=
    if chip_size < max (chipX chip) (chipY chip) then
      clipChip4 chip_size chip
    else chip
  let item := [Item.chip chip]
  -- the source normalizes AFTER `item = [chip]` and rebinds only the local
  -- `chip` (dataloaders.py:92-96): the normalized tensor is never stored,
  -- so this value is dead
  let _normalized :=
    (normalizeCfg means stds).map
      (fun p => preprocesNormalization p.1 p.2 chip)
  let item ← match anno_data_path with
    | some _ => do
        let a ← get_strata chip_size annos nm
        pure (item ++ [Item.anno a])
    | none => pure item
  pure (if include_names then item ++ [Item.sqName nm] else item)

/-! ## Theorems -/

theorem pyEq_self_iff_not_nan (c : PyF) : pyEq c c = !isNaN c := by
  cases c <;> simp [pyEq, isNaN]

theorem specJoinedName_eq (l : List (ℤ × ℤ)) :
    specJoinedName l = pyJoin "_" (l.dropLast.map coordSegment) := by
  induction l with
  | nil => rfl
  | cons p rest ih =>
    match rest with
    | [] => rfl
    | [q] => rfl
    | q :: r :: rest' =>
      simp only [specJoinedName, ih]
      simp [pyJoin, List.dropLast]

/-- C7 counterexample: the claim says every list with more than one pair has
its last pair dropped and the rest joined, so `[(1,2),(3,4)]` would have to
yield `"x1y2"`; the code's `len(coords) > 2` test sends a two-pair list to
the direct-format branch, which renders the two pairs with Python tuple repr
instead, and a genuine one-pair list `[(1,2)]` hits `coords[1]` and raises
`IndexError` rather than formatting the pair. -/
theorem generate_coords_name_two_pairs_counterexample :
    generate_coords_name [(1, 2), (3, 4)] = some "x(1, 2)y(3, 4)" ∧
    generate_coords_name [(1, 2), (3, 4)] ≠ some "x1y2" ∧
    generate_coords_name [(1, 2)] = none := by
  refine ⟨rfl, ?_, rfl⟩
  decide

/-- C7 (amended): lists of more than two pairs have the last (closing) pair
dropped and the remainder joined as `x{x}y{y}` segments separated by
underscores; a list of exactly two pairs is formatted directly as
`x{pair}y{pair}` with Python tuple repr, without dropping; a list of at most
one pair fails with an index error. -/
theorem generate_coords_name_amended (coords : List (ℤ × ℤ)) :
    (2 < coords.length →
      generate_coords_name coords = some (specJoinedName coords)) ∧
    (∀ p0 p1, coords = [p0, p1] →
      generate_coords_name coords =
        some ("x" ++ pyPairRepr p0 ++ "y" ++ pyPairRepr p1)) ∧
    (coords.length ≤ 1 → generate_coords_name coords = none) := by
  refine ⟨fun h => ?_, fun p0 p1 h => ?_, fun h => ?_⟩
  · rw [specJoinedName_eq]
    unfold generate_coords_name
    rw [if_pos h]
  · subst h; rfl
  · match coords, h with
    | [], _ => rfl
    | [p], _ => rfl

/-- C7 witness: the claim's own example, settled through the amended
theorem's more-than-two-pairs branch. -/
theorem generate_coords_name_amended_witness :
    generate_coords_name [(1, 2), (3, 4), (1, 2)] = some "x1y2_x3y4" := by
  have h := (generate_coords_name_amended [(1, 2), (3, 4), (1, 2)]).1 (by decide)
  rw [h]; rfl

/-- C8: `parse_meta_data` keeps exactly the geometry pairs free of NaN
components (Python's self-inequality test being equivalent to the NaN
predicate), and when the record has a `year` it returns
`start_date = June 1 of (year - back_step)` and
`end_date = September 1 of year`; with no `year` both dates are `None`. -/
theorem parse_meta_data_nan_filter_and_dates (md : MetaRecord) (bs : ℤ) :
    (parse_meta_data md bs).geometry
        = md.geometry.filter (fun p => !(p.any isNaN)) ∧
    (∀ y, md.year = some y →
      (parse_meta_data md bs).start_date = some ⟨y - bs, 6, 1⟩ ∧
      (parse_meta_data md bs).end_date = some ⟨y, 9, 1⟩) ∧
    (md.year = none →
      (parse_meta_data md bs).start_date = none ∧
      (parse_meta_data md bs).end_date = none) := by
  refine ⟨?_, fun y hy => ?_, fun hy => ?_⟩
  · have hpt : ∀ p : List PyF, (p.all fun c => pyEq c c) = !p.any isNaN := by
      intro p
      simp [pyEq_self_iff_not_nan, List.all_eq_not_any_not]
    exact List.filter_congr fun p _ => hpt p
  · simp [parse_meta_data, hy]
  · simp [parse_meta_data, hy]

/-- C8 witness: a record with one clean pair and one NaN-bearing pair, and
`year = 2020`, `back_step = 2`. -/
theorem parse_meta_data_witness :
    (parse_meta_data
        ⟨[[.val 1, .val 2], [.nan, .val 3]], (0, 0), "pt", [], "sq",
          some 2020, []⟩ 2).geometry = [[.val 1, .val 2]] ∧
    (parse_meta_data
        ⟨[[.val 1, .val 2], [.nan, .val 3]], (0, 0), "pt", [], "sq",
          some 2020, []⟩ 2).start_date = some ⟨2018, 6, 1⟩ := by
  constructor
  · rw [(parse_meta_data_nan_filter_and_dates _ 2).1]; rfl
  · have h := ((parse_meta_data_nan_filter_and_dates
      ⟨[[.val 1, .val 2], [.nan, .val 3]], (0, 0), "pt", [], "sq",
        some 2020, []⟩ 2).2.1 2020 rfl).1
    rw [h]
    norm_num

theorem pySlice_middle {α : Type*} (a b : α) (l : List α) :
    pySlice (a :: (l ++ [b])) 1 (-1) = l := by
  unfold pySlice pySliceNorm
  have hlen : (a :: (l ++ [b])).length = l.length + 2 := by simp
  rw [hlen]
  have h1 : ((-1 : ℤ) < 0) = True := by norm_num
  have h2 : ¬((1 : ℤ) < 0) := by norm_num
  simp only [h1, if_true, if_neg h2]
  have h3 : ((l.length + 2 : ℕ) + (-1 : ℤ)).toNat = l.length + 1 := by
    push_cast
    omega
  have h4 : min (1 : ℤ).toNat (l.length + 2) = 1 := by omega
  rw [h3, h4]
  have h5 : (a :: (l ++ [b])).take (l.length + 1) = a :: l := by
    rw [List.take_succ_cons, List.take_left]
  rw [h5, List.drop_one, List.tail_cons]

/-- C6: padding an `(x=8, y=8)` array to edge size 10 adds one row/column on
the lower side and one on the upper side of each axis (`diff // 2 = 1` and
remainder `1`), and centre-cropping the result back to size 8 with
`clip_chip` recovers the original array exactly. -/
theorem pad_then_clip_roundtrip {α : Type*} (nd : α) (g : List (List α))
    (hx : g.length = 8) (hy : ∀ r ∈ g, r.length = 8) :
    pad_xy_xarray nd 10 g =
      [List.replicate 10 nd] ++
        g.map (fun r => [nd] ++ r ++ [nd]) ++ [List.replicate 10 nd] ∧
    clip_chip 8 (pad_xy_xarray nd 10 g) = g := by
  have hgy : gridY g = 8 := by
    match g, hx with
    | r :: rest, _ => exact hy r (List.mem_cons_self r rest)
  have hpad : pad_xy_xarray nd 10 g =
      [List.replicate 10 nd] ++
        g.map (fun r => [nd] ++ r ++ [nd]) ++ [List.replicate 10 nd] := by
    unfold pad_xy_xarray
    rw [hx, hgy]
    norm_num
  refine ⟨hpad, ?_⟩
  rw [hpad]
  have hmid : (g.map (fun r => [nd] ++ r ++ [nd])).length = 8 := by
    simp [hx]
  have hplen : ([List.replicate 10 nd] ++
      g.map (fun r => [nd] ++ r ++ [nd]) ++ [List.replicate 10 nd]).length = 10 := by
    simp [hx]
  have hpy : gridY ([List.replicate 10 nd] ++
      g.map (fun r => [nd] ++ r ++ [nd]) ++ [List.replicate 10 nd]) = 10 := by
    simp [gridY]
  unfold clip_chip
  rw [hplen, hpy]
  have hparam : clipAxis 8 10 = (1, 1) := by
    unfold clipAxis
    norm_num
  rw [hparam]
  simp only [Prod.fst, Prod.snd]
  unfold clipGridWith
  have houter : pySlice ([List.replicate 10 nd] ++
      g.map (fun r => [nd] ++ r ++ [nd]) ++ [List.replicate 10 nd]) 1 (-1) =
      g.map (fun r => [nd] ++ r ++ [nd]) := by
    have hshape : [List.replicate 10 nd] ++
        g.map (fun r => [nd] ++ r ++ [nd]) ++ [List.replicate 10 nd] =
        List.replicate 10 nd ::
          (g.map (fun r => [nd] ++ r ++ [nd]) ++ [List.replicate 10 nd]) := by
      simp
    rw [hshape, pySlice_middle]
  rw [houter, List.map_map]
  have hrows : ∀ r ∈ g, pySlice ([nd] ++ r ++ [nd]) 1 (-1) = r := by
    intro r _
    have : [nd] ++ r ++ [nd] = nd :: (r ++ [nd]) := by simp
    rw [this, pySlice_middle]
  calc (g.map ((fun r => pySlice r 1 (-1)) ∘ fun r => [nd] ++ r ++ [nd]))
      = g.map id := List.map_congr_left (fun r hr => hrows r hr)
    _ = g := List.map_id g

/-- C6 witness: the round trip on a concrete 8×8 rational grid. -/
theorem pad_then_clip_roundtrip_witness :
    clip_chip 8 (pad_xy_xarray (0 : ℚ) 10
        (List.replicate 8 (List.replicate 8 (3 : ℚ)))) =
      List.replicate 8 (List.replicate 8 (3 : ℚ)) :=
  (pad_then_clip_roundtrip 0 _ (by decide)
    (fun r hr => by
      rw [List.eq_of_mem_replicate hr]
      decide)).2

/-- Supporting lemma: the limit-comparison block of `start` — unreachable
in the source when the bypass is off, see
`start_crashes_before_limit_checks` — would, in isolation, error if and
only if a limit is exceeded: estimated size above 65 MB, square root of
pixel count above 3.2e4, or band count above 1024. -/
theorem downloader_preflight_limits (s p b : ℚ) (hp : 0 ≤ p) :
    startPreflight true s p b = .ok () ∧
    (startPreflight false s p b = .ok () ↔
      ¬(65 < s ∨ (3.2e4 : ℝ) < Real.sqrt (p : ℝ) ∨ 1024 < b)) ∧
    ((∃ e, startPreflight false s p b = .error e) ↔
      (65 < s ∨ (3.2e4 : ℝ) < Real.sqrt (p : ℝ) ∨ 1024 < b)) := by
  have hsqrt : ((3.2e4 : ℝ) < Real.sqrt (p : ℝ)) ↔ (pixel_limit ^ 2 < p) := by
    rw [Real.lt_sqrt (by norm_num)]
    have hc : ((pixel_limit ^ 2 : ℚ) : ℝ) = (3.2e4 : ℝ) ^ 2 := by
      rw [pixel_limit]
      norm_num
    rw [← hc, Rat.cast_lt]
  have hgoal : (65 < s ∨ (3.2e4 : ℝ) < Real.sqrt (p : ℝ) ∨ 1024 < b) ↔
      (size_limit < s ∨ pixel_limit ^ 2 < p ∨ band_limit < b) := by
    rw [hsqrt, size_limit, band_limit]
  refine ⟨rfl, ?_, ?_⟩ <;>
    · rw [hgoal]
      simp only [startPreflight, Bool.false_eq_true, if_false]
      split_ifs <;> simp_all

/-- Instance of the limit-block lemma at a compliant triple and at an
oversize triple. -/
theorem downloader_preflight_limits_witness :
    startPreflight false 10 1000000 8 = .ok () ∧
    (∃ e, startPreflight false 100 1000000 8 = .error e) := by
  constructor
  · exact (downloader_preflight_limits 10 1000000 8 (by norm_num)).2.1.mpr
      (by
        push_neg
        refine ⟨by norm_num, ?_, by norm_num⟩
        have h := Real.sqrt_le_sqrt (show (1000000 : ℝ) ≤ 3.2e4 ^ 2 by norm_num)
        rw [Real.sqrt_sq (by norm_num)] at h
        exact le_trans h (by norm_num))
  · exact (downloader_preflight_limits 100 1000000 8 (by norm_num)).2.2.mpr
      (Or.inl (by norm_num))

/-- C2 (code evaluation): with the bypass flag clear, `start` never reaches
a limit comparison: unpacking `parse_meta_data`'s eight-component tuple
into seven targets (downloader.py:114) raises `ValueError` on every record
and every estimate triple, so no limit-dependent behaviour — abort on
exceeded limits, watcher launch otherwise — ever occurs; only the bypass
path proceeds. -/
theorem start_crashes_before_limit_checks (md : MetaRecord) (back_step : ℤ)
    (s p b : ℚ) :
    Downloader_start md back_step false s p b =
      .error "ValueError: too many values to unpack (expected 7)" ∧
    Downloader_start md back_step true s p b = .ok () :=
  ⟨rfl, rfl⟩

theorem fetchLoopGo_all_fail (oracle : ℕ → Bool) (retries : ℕ) (name : String)
    (h : ∀ i, oracle i = false) :
    ∀ remaining a, remaining = retries - a → a < retries →
      fetchLoopGo oracle retries name a remaining = (none, [name]) := by
  intro remaining
  induction remaining with
  | zero => intro a h1 h2; omega
  | succ n ih =>
    intro a h1 h2
    rw [fetchLoopGo, h (a + 1)]
    by_cases he : a + 1 = retries
    · simp [he]
    · simp only [Bool.false_eq_true, if_false, if_neg he]
      exact ih (a + 1) (by omega) (by omega)

theorem fetchLoopGo_success_last (oracle : ℕ → Bool) (retries : ℕ)
    (name : String) (h2 : oracle retries = true) :
    ∀ remaining a, remaining = retries - a → a < retries →
      (∀ i, a < i → i < retries → oracle i = false) →
      fetchLoopGo oracle retries name a remaining = (some retries, []) := by
  intro remaining
  induction remaining with
  | zero => intro a h1 hlt _; omega
  | succ n ih =>
    intro a h1 hlt hfail
    rw [fetchLoopGo]
    by_cases he : a + 1 = retries
    · rw [he, h2]
      simp
    · rw [hfail (a + 1) (by omega) (by omega)]
      simp only [Bool.false_eq_true, if_false, if_neg he]
      exact ih (a + 1) (by omega) (by omega) (fun i hi1 hi2 => hfail i (by omega) hi2)

/-- C9: a consumer whose imagery fetch raises on every attempt up to the
configured retry count reports the record as failed (the max-retries ERROR
path) and never persists a chip, the loop's exception handling returning
normally; a consumer whose fetch first succeeds on the final permitted
attempt persists the result and reports no failure. -/
theorem image_consumer_retry_policy (oracle : ℕ → Bool) (retries : ℕ)
    (name : String) (hr : 0 < retries) :
    ((∀ i, oracle i = false) →
      (image_consumer_task oracle retries name).persisted = false ∧
      (image_consumer_task oracle retries name).errorReported = true) ∧
    ((∀ i, i < retries → oracle i = false) → oracle retries = true →
      (image_consumer_task oracle retries name).persisted = true ∧
      (image_consumer_task oracle retries name).errorReported = false) := by
  constructor
  · intro hfail
    have h := fetchLoopGo_all_fail oracle retries name hfail (retries - 0) 0 rfl hr
    rw [Nat.sub_zero] at h
    simp [image_consumer_task, fetchLoop, h]
  · intro hfail hlast
    have h := fetchLoopGo_success_last oracle retries name hlast (retries - 0) 0
      rfl hr (fun i _ hi2 => hfail i hi2)
    rw [Nat.sub_zero] at h
    simp [image_consumer_task, fetchLoop, h]

/-- C9 witness: three retries; an always-failing fetch persists nothing, a
fetch succeeding exactly on attempt 3 persists. -/
theorem image_consumer_retry_policy_witness :
    (image_consumer_task (fun _ => false) 3 "sq").persisted = false ∧
    (image_consumer_task (fun i => i == 3) 3 "sq").persisted = true :=
  ⟨((image_consumer_retry_policy (fun _ => false) 3 "sq" (by decide)).1
      (fun _ => rfl)).1,
   ((image_consumer_retry_policy (fun i => i == 3) 3 "sq" (by decide)).2
      (fun i hi => by
        simp only [beq_eq_false_iff_ne]
        omega)
      rfl).1⟩

/-- C1: at the claim's own 3-record ZARR scenario (record 0 already present
in both stores, `overwrite = false`, the other two downloading successfully)
the generator does enqueue exactly 2 image requests, but the skip path
pushes nothing onto the result queue (downloader.py:258-269 `continue`s
without a `result_queue.put`), so only 2 non-sentinel values are ever
produced and the watcher's `while idx < meta_size` drain loop can never
count 3 completions; moreover a record failing after all retries is pushed
twice (downloader.py:366 and 414), contradicting "exactly one" from the
other side. -/
theorem watcher_undercount_on_zarr_skip :
    tasksEnqueued
        [("sq0", .alreadyExists), ("sq1", .enqueued), ("sq2", .enqueued)] = 2 ∧
    ((resultQueuePushes
        [("sq0", .alreadyExists), ("sq1", .enqueued), ("sq2", .enqueued)]
        (fun _ _ => true) 3 1).filter Option.isSome).length = 2 ∧
    watcherTerminates
      (resultQueuePushes
        [("sq0", .alreadyExists), ("sq1", .enqueued), ("sq2", .enqueued)]
        (fun _ _ => true) 3 1) 3 = false ∧
    (image_consumer_task (fun _ => false) 3 "sq").results.length = 2 := by
  refine ⟨rfl, rfl, rfl, rfl⟩

theorem pySlice_eq_drop_take {α : Type*} (l : List α) (a b : ℤ)
    (ha : 0 ≤ a) (hal : a ≤ l.length) (hb : 0 ≤ b) (hbl : b ≤ l.length) :
    pySlice l a b = (l.drop a.toNat).take (b.toNat - a.toNat) := by
  unfold pySlice pySliceNorm
  rw [if_neg (not_lt.2 hb), if_neg (not_lt.2 ha)]
  rw [min_eq_left (by omega : b.toNat ≤ l.length),
    min_eq_left (by omega : a.toNat ≤ l.length), List.drop_take]

theorem pySlice_zero_zero {α : Type*} (l : List α) : pySlice l 0 0 = [] := by
  unfold pySlice pySliceNorm
  simp

/-- C4: with both `base_year` and `back_step` configured and the year window
in range, `__getitem__` returns a chip holding exactly `back_step + 1`
consecutive stored years ending at the record's year — positions
`[year - back_step - base_year, year - base_year]` in the store's
year-offset origin — the year slices being exactly the window
`slice_year` selects, spatially centre-cropped only when oversized; when
either setting is absent, it returns the chip's full stored year range
(again cropped only when oversized). -/
theorem getitem_year_window (means stds : Option (List ℚ)) (chip_size : ℕ)
    (yb bs : ℤ) (hbs : 0 ≤ bs)
    (samples : List (String × ℤ)) (chips : List (String × Chip))
    (idx : ℕ) (nm : String) (yr : ℤ) (image : Chip)
    (hs : samples[idx]? = some (nm, yr))
    (hc : chips.lookup nm = some image)
    (hlo : 0 ≤ yr - yb - bs)
    (hhi : yr - yb < ((image : List (List (List (List ℚ)))).length : ℤ)) :
    (slice_year yb bs image yr : List (List (List (List ℚ)))) =
      ((image : List (List (List (List ℚ)))).drop
        (yr - yb - bs).toNat).take (bs.toNat + 1) ∧
    (slice_year yb bs image yr : List (List (List (List ℚ)))).length =
      bs.toNat + 1 ∧
    (∃ c : Chip,
      getitem means stds none chip_size (some yb) (some bs) false
          samples chips [] idx
        = some [Item.chip c] ∧
      (c = slice_year yb bs image yr ∨
        c = clipChip4 chip_size (slice_year yb bs image yr)) ∧
      (c : List (List (List (List ℚ)))).length = bs.toNat + 1 ∧
      (¬(chip_size < max (chipX (slice_year yb bs image yr))
          (chipY (slice_year yb bs image yr))) →
        c = slice_year yb bs image yr)) ∧
    (∀ oyb obs : Option ℤ, oyb = none ∨ obs = none →
      ∃ c : Chip,
        getitem means stds none chip_size oyb obs false samples chips [] idx
          = some [Item.chip c] ∧
        (c = image ∨ c = clipChip4 chip_size image) ∧
        (c : List (List (List (List ℚ)))).length =
          (image : List (List (List (List ℚ)))).length) := by
  have hwin : (slice_year yb bs image yr : List (List (List (List ℚ)))) =
      ((image : List (List (List (List ℚ)))).drop
        (yr - yb - bs).toNat).take (bs.toNat + 1) := by
    unfold slice_year
    rw [pySlice_eq_drop_take _ _ _ hlo (by omega) (by omega) (by omega)]
    congr 1
    omega
  have hlen : (slice_year yb bs image yr :
      List (List (List (List ℚ)))).length = bs.toNat + 1 := by
    rw [hwin]
    rw [List.length_take, List.length_drop]
    omega
  have hcliplen : ∀ (cs : ℕ) (c : Chip),
      (clipChip4 cs c : List (List (List (List ℚ)))).length =
        (c : List (List (List (List ℚ)))).length := by
    intro cs c
    simp [clipChip4]
  refine ⟨hwin, hlen, ?_, ?_⟩
  · by_cases hcl : chip_size < max (chipX (slice_year yb bs image yr))
        (chipY (slice_year yb bs image yr))
    · have hcl' := lt_sup_iff.mp hcl
      refine ⟨clipChip4 chip_size (slice_year yb bs image yr), ?_,
        Or.inr rfl, ?_, fun h => absurd hcl h⟩
      · simp [getitem, hs, hc, hcl']
      · rw [hcliplen, hlen]
    · refine ⟨slice_year yb bs image yr, ?_, Or.inl rfl, hlen, fun _ => rfl⟩
      simp [getitem, hs, hc]
      intro h
      exact ((hcl (lt_sup_iff.mpr h)).elim : _)
  · intro oyb obs hor
    by_cases hcl : chip_size < max (chipX image) (chipY image)
    · have hcl' := lt_sup_iff.mp hcl
      refine ⟨clipChip4 chip_size image, ?_, Or.inr rfl, hcliplen _ _⟩
      rcases hor with h | h
      · subst h
        cases obs <;> simp [getitem, hs, hc, hcl']
      · subst h
        cases oyb <;> simp [getitem, hs, hc, hcl']
    · refine ⟨image, ?_, Or.inl rfl, rfl⟩
      rcases hor with h | h
      · subst h
        cases obs <;>
          · simp [getitem, hs, hc]
            intro h'
            exact ((hcl (lt_sup_iff.mpr h')).elim : _)
      · subst h
        cases oyb <;>
          · simp [getitem, hs, hc]
            intro h'
            exact ((hcl (lt_sup_iff.mpr h')).elim : _)

/-- C4 witness: a four-year stored chip, `base_year = 0`, `back_step = 1`,
record year 2: the returned chip is stored years 1 and 2. -/
theorem getitem_year_window_witness :
    getitem none none none 1 (some 0) (some 1) false [("sq", 2)]
        [("sq", [[[[(0 : ℚ)]]], [[[(1 : ℚ)]]], [[[(2 : ℚ)]]],
          [[[(3 : ℚ)]]]])] [] 0
      = some [Item.chip [[[[(1 : ℚ)]]], [[[(2 : ℚ)]]]]] := by
  obtain ⟨c, hceq, _, _, hnc⟩ := (getitem_year_window none none 1 0 1
    (by norm_num) [("sq", 2)]
    [("sq", [[[[(0 : ℚ)]]], [[[(1 : ℚ)]]], [[[(2 : ℚ)]]], [[[(3 : ℚ)]]]])]
    0 "sq" 2
    [[[[(0 : ℚ)]]], [[[(1 : ℚ)]]], [[[(2 : ℚ)]]], [[[(3 : ℚ)]]]]
    rfl rfl (by norm_num) (by norm_num)).2.2.1
  have hcs := hnc (by decide)
  rw [hcs] at hceq
  rw [hceq]
  rfl

/-- C10: when the stored chip's spatial extents straddle the target size —
one extent strictly larger than `chip_size`, the other exactly equal —
`__getitem__` invokes the centred crop, whose bounds on the equal axis are
`slice(0, -0) = slice(0, 0)`, so the returned chip has zero extent along
that axis instead of keeping it at `chip_size`: with `y` the equal axis
every year slice's rows are all empty; with `x` the equal axis every year
slice itself is empty (the year count being preserved). -/
theorem getitem_straddle_zero_extent (means stds : Option (List ℚ))
    (chip_size : ℕ) (samples : List (String × ℤ))
    (chips : List (String × Chip)) (idx : ℕ) (nm : String) (yr : ℤ)
    (image : Chip)
    (hs : samples[idx]? = some (nm, yr))
    (hc : chips.lookup nm = some image) :
    (chip_size < chipX image → chipY image = chip_size →
      getitem means stds none chip_size none none false samples chips [] idx
        = some [Item.chip (clipChip4 chip_size image)] ∧
      ∀ yrS ∈ (clipChip4 chip_size image : List (List (List (List ℚ)))),
        gridY yrS = 0 ∧ ∀ row ∈ yrS, row = []) ∧
    (chipX image = chip_size → chip_size < chipY image →
      getitem means stds none chip_size none none false samples chips [] idx
        = some [Item.chip (clipChip4 chip_size image)] ∧
      (clipChip4 chip_size image : List (List (List (List ℚ)))).length =
        (image : List (List (List (List ℚ)))).length ∧
      ∀ yrS ∈ (clipChip4 chip_size image : List (List (List (List ℚ)))),
        yrS = []) := by
  constructor
  · intro hx hy
    have hclip : chip_size < max (chipX image) (chipY image) :=
      lt_of_lt_of_le hx (le_max_left _ _)
    have hyAxis : clipAxis chip_size (chipY image) = (0, 0) := by
      unfold clipAxis
      rw [hy]
      norm_num
    constructor
    · simp [getitem, hs, hc, hclip]
      intro h1 _
      exact absurd hx (not_lt.2 h1)
    · intro yrS hmem
      unfold clipChip4 at hmem
      rw [hyAxis] at hmem
      obtain ⟨ys, _, rfl⟩ := List.mem_map.1 hmem
      have hrows : ∀ row ∈ clipGridWith (clipAxis chip_size (chipX image)).1
          (clipAxis chip_size (chipX image)).2 0 0 ys, row = [] := by
        intro row hrow
        unfold clipGridWith at hrow
        obtain ⟨r, _, rfl⟩ := List.mem_map.1 hrow
        rw [neg_zero, pySlice_zero_zero]
      refine ⟨?_, hrows⟩
      unfold gridY
      match hzs : clipGridWith (clipAxis chip_size (chipX image)).1
          (clipAxis chip_size (chipX image)).2 0 0 ys with
      | [] => rfl
      | r :: rest =>
        have : r = [] := by
          have : r ∈ clipGridWith (clipAxis chip_size (chipX image)).1
              (clipAxis chip_size (chipX image)).2 0 0 ys := by
            rw [hzs]; exact List.mem_cons_self r rest
          exact hrows r this
        simp [this]
  · intro hx hy
    have hclip : chip_size < max (chipX image) (chipY image) :=
      lt_of_lt_of_le hy (le_max_right _ _)
    have hxAxis : clipAxis chip_size (chipX image) = (0, 0) := by
      unfold clipAxis
      rw [hx]
      norm_num
    refine ⟨?_, by simp [clipChip4], ?_⟩
    · simp [getitem, hs, hc, hclip]
      intro _ h2
      exact absurd hy (not_lt.2 h2)
    · intro yrS hmem
      unfold clipChip4 at hmem
      rw [hxAxis] at hmem
      obtain ⟨ys, _, rfl⟩ := List.mem_map.1 hmem
      unfold clipGridWith
      rw [neg_zero, pySlice_zero_zero]
      rfl

/-- C10 witness: target size 1; a one-year chip with `x = 2`, `y = 1`
returns the single year slice `[[]]` (one `x` row of zero `y` extent), and
a one-year chip with `x = 1`, `y = 2` returns the single year slice `[]`
(zero `x` extent). -/
theorem getitem_straddle_zero_extent_witness :
    getitem none none none 1 none none false [("sq", 0)]
        [("sq", [[[[(1 : ℚ)]], [[(2 : ℚ)]]]])] [] 0
      = some [Item.chip [[ ([] : List (List ℚ)) ]]] ∧
    getitem none none none 1 none none false [("sq", 0)]
        [("sq", [[[[(1 : ℚ)], [(2 : ℚ)]]]])] [] 0
      = some [Item.chip [([] : List (List (List ℚ)))]] := by
  constructor
  · have h := ((getitem_straddle_zero_extent none none 1 [("sq", 0)]
      [("sq", [[[[(1 : ℚ)]], [[(2 : ℚ)]]]])] 0 "sq" 0
      [[[[(1 : ℚ)]], [[(2 : ℚ)]]]] rfl rfl).1 (by decide) (by decide)).1
    rw [h]
    rfl
  · have h := ((getitem_straddle_zero_extent none none 1 [("sq", 0)]
      [("sq", [[[[(1 : ℚ)], [(2 : ℚ)]]]])] 0 "sq" 0
      [[[[(1 : ℚ)], [(2 : ℚ)]]]] rfl rfl).2 (by decide) (by decide)).1
    rw [h]
    rfl

/-- C3 (code evaluation): with per-band mean `[2]` and std `[4]` configured,
`__getitem__` returns the raw chip value 10, not the normalized value
`(10 - 2) / 4 = 2`: `item = [chip]` is built before the normalization line
and the normalized tensor is discarded (dataloaders.py:92-96).  The list
shape `[chip, (annotation)?, (name)?]` itself is as claimed. -/
theorem getitem_normalization_discarded :
    getitem (some [2]) (some [4]) none 1 none none false
        [("sq", 2020)] [("sq", [[[[(10 : ℚ)]]]])] [] 0
      = some [Item.chip [[[[(10 : ℚ)]]]]] ∧
    preprocesNormalization [2] [4] [[[[(10 : ℚ)]]]] = [[[[(2 : ℚ)]]]] ∧
    ([[[[(10 : ℚ)]]]] : Chip) ≠ ([[[[(2 : ℚ)]]]] : Chip) := by
  refine ⟨rfl, ?_, by norm_num⟩
  simp [preprocesNormalization, normCell]
  norm_num

/-- C5 counterexample: a 1×1 pixel array with overlap mask `[[7]]`, a known
stratum `"A"` (mapped index 0) in a two-stratum map, and pixel edge size 2.
Padding triggers and fills with the no-data sentinel, so the non-designated
stratum slice is `[[0, -32768], [-32768, -32768]]` — not zero — and the
designated slice is the padded mask, not the overlap mask itself; the claim
as stated (every other stratum slice zero, designated slice equal to the
mask) fails on this input. -/
theorem zarr_reshape_padding_counterexample :
    (zarr_reshape [("2020_B1", [[3]]), ("overlap", [[7]])] 2 "sq" "pt"
        [("stratum", "A")] [("A", 0), ("B", 1)]).map
        (fun o => o.ann.map Prod.fst)
      = some (some [[[(7 : ℚ), -32768], [-32768, -32768]],
                    [[(0 : ℚ), -32768], [-32768, -32768]]]) ∧
    ([[(0 : ℚ), -32768], [-32768, -32768]] : Mat) ≠
      [[(0 : ℚ), 0], [0, 0]] ∧
    ([[(7 : ℚ), -32768], [-32768, -32768]] : Mat) ≠ [[(7 : ℚ)]] := by
  refine ⟨rfl, by decide, by decide⟩

/-- C5 (amended): provided neither spatial extent of the reshaped chip is
below the configured pixel edge size (so no centre padding applies), for a
raw pixel array with an `"overlap"` field and a stratum attribute known to
the strata map, `zarr_reshape` returns the chip chunked one year per chunk
and an annotation array chunked one stratum per chunk whose slice at the
mapped stratum index equals the overlap mask while every other slice is the
all-zero mask (hence at most the mapped slice is nonzero); under padding,
non-designated slices instead carry the no-data sentinel. -/
theorem zarr_reshape_one_hot_amended (fields : List (String × Mat))
    (pes : ℕ) (sq pt : String) (attributes : List (String × String))
    (strata_map : List (String × ℕ)) (st : String) (idx : ℕ) (overlap : Mat)
    (chip : Chip) (bc : ℕ)
    (hchip : buildChip fields = some (chip, bc))
    (hov : fields.lookup "overlap" = some overlap)
    (hst : (attributes ++ [("point", pt)]).lookup STRATA_ATTR_NAME = some st)
    (hidx : strata_map.lookup st = some idx)
    (hlt : idx < strata_map.length)
    (hnopad : pes ≤ min (chipX chip) (chipY chip)) :
    zarr_reshape fields pes sq pt attributes strata_map =
      some { chip := chip
             chipChunks := [("year", 1)]
             ann := some
               ((List.replicate strata_map.length (zerosLike overlap)).set
                  idx overlap,
                [(STRATA_DIM_NAME, 1)]) } ∧
    ((List.replicate strata_map.length (zerosLike overlap)).set
        idx overlap)[idx]? = some overlap ∧
    (∀ j, j < strata_map.length → j ≠ idx →
      ((List.replicate strata_map.length (zerosLike overlap)).set
          idx overlap)[j]? = some (zerosLike overlap)) ∧
    (∀ r ∈ zerosLike overlap, ∀ q ∈ r, q = 0) := by
  refine ⟨?_, ?_, ?_, ?_⟩
  · have hpad : ¬(min (chipX chip) (chipY chip) < pes) := not_lt.2 hnopad
    simp [zarr_reshape, buildAnn, hchip, hst, hov, hidx, hpad]
    exact ⟨fun h => (hpad (inf_lt_iff.mpr h)).elim,
      fun h => (hpad (inf_lt_iff.mpr h)).elim⟩
  · exact List.getElem?_set_eq_of_lt overlap
      (by rw [List.length_replicate]; exact hlt)
  · intro j hj hne
    rw [List.getElem?_set_ne (fun he => hne he.symm)]
    simp [List.getElem?_replicate, hj]
  · intro r hr q hq
    obtain ⟨row, _, rfl⟩ := List.mem_map.1 hr
    obtain ⟨v, _, rfl⟩ := List.mem_map.1 hq
    rfl

/-- C5 witness: a 2×2 array needing no padding, stratum `"B"` mapped to
index 1 of a two-entry map: the annotation is the zero mask followed by the
overlap mask. -/
theorem zarr_reshape_one_hot_witness :
    (zarr_reshape [("2020_B1", [[3, 4], [5, 6]]),
        ("overlap", [[1, 0], [0, 1]])] 2 "sq" "pt"
        [("stratum", "B")] [("A", 0), ("B", 1)]).map
        (fun o => o.ann.map Prod.fst)
      = some (some [[[(0 : ℚ), 0], [0, 0]], [[(1 : ℚ), 0], [0, 1]]]) := by
  have h := (zarr_reshape_one_hot_amended
    [("2020_B1", [[3, 4], [5, 6]]), ("overlap", [[1, 0], [0, 1]])] 2 "sq" "pt"
    [("stratum", "B")] [("A", 0), ("B", 1)] "B" 1 [[1, 0], [0, 1]]
    [[[[3], [4]], [[5], [6]]]] 1 rfl rfl rfl rfl (by decide) (by decide)).1
  rw [h]
  rfl

end Sundial
